import Mathlib

/-!
Shallow embedding of the BMI calculator repository (client/src/pages/bmi-calculator.tsx
and shared/schema.ts).  Numbers are modelled as rationals: every numeric literal in the
source is a decimal, hence exactly representable, and all operations used by the code
(add, mul, div, comparisons) are field operations.
-/

namespace BMI

/-- Embedding of the input accepted by the form, type BMICalculation inferred from
bmiCalculationSchema in shared/schema.ts. -/
structure BMICalculation where
  age : ℚ
  height : ℚ
  weight : ℚ
  heightUnit : String
  weightUnit : String
deriving DecidableEq, Repr

/-- Embedding of the BMIResult interface of bmi-calculator.tsx. -/
structure BMIResult where
  bmi : ℚ
  category : String
  description : String
  color : String
deriving DecidableEq, Repr

/-- Embedding of convertHeight from bmi-calculator.tsx: feet are multiplied by 0.3048,
any other unit string is treated as centimeters and divided by 100. -/
def convertHeight (value : ℚ) (unit : String) : ℚ :=
  if unit = "ft" then value * 0.3048 else value / 100

/-- Embedding of convertWeight from bmi-calculator.tsx: pounds are multiplied by
0.453592, any other unit string is returned unchanged (kilograms). -/
def convertWeight (value : ℚ) (unit : String) : ℚ :=
  if unit = "lbs" then value * 0.453592 else value

/-- Embedding of the category/description/color record returned by getBMICategory. -/
structure CategoryInfo where
  category : String
  description : String
  color : String
deriving DecidableEq, Repr

/-- Embedding of getBMICategory from bmi-calculator.tsx, with the same chain of
conditionals. -/
def getBMICategory (bmi : ℚ) : CategoryInfo :=
  if bmi < 18.5 then
    { category := "Underweight"
      description := "You may need to gain weight. Consider consulting a healthcare provider."
      color := "text-blue-600" }
  else if 18.5 ≤ bmi ∧ bmi < 25 then
    { category := "Normal Weight"
      description := "You have a healthy body weight. Keep up the good work!"
      color := "text-green-600" }
  else if 25 ≤ bmi ∧ bmi < 30 then
    { category := "Overweight"
      description := "You may want to consider losing some weight for better health."
      color := "text-yellow-600" }
  else
    { category := "Obese"
      description := "Consider consulting a healthcare provider for a weight management plan."
      color := "text-red-600" }

/-- Embedding of the pure part of onSubmit from bmi-calculator.tsx: the BMIResult that
is passed to setResult. -/
def onSubmit (data : BMICalculation) : BMIResult :=
  let heightInMeters := convertHeight data.height data.heightUnit
  let weightInKg := convertWeight data.weight data.weightUnit
  let bmi := weightInKg / (heightInMeters * heightInMeters)
  let categoryInfo := getBMICategory bmi
  { bmi := bmi
    category := categoryInfo.category
    description := categoryInfo.description
    color := categoryInfo.color }

/-- Embedding of the age validator of bmiCalculationSchema in shared/schema.ts:
z.number().min(1).max(120).  zod min and max are inclusive bounds; no .int() check
is present. -/
def ageAccepted (age : ℚ) : Prop :=
  1 ≤ age ∧ age ≤ 120

/-- Embedding of the height validator of bmiCalculationSchema in shared/schema.ts:
z.number().min(0.1), an inclusive lower bound of 0.1. -/
def heightAccepted (height : ℚ) : Prop :=
  0.1 ≤ height

/-- Embedding of the weight validator of bmiCalculationSchema in shared/schema.ts:
z.number().min(0.1), an inclusive lower bound of 0.1. -/
def weightAccepted (weight : ℚ) : Prop :=
  0.1 ≤ weight

instance (a : ℚ) : Decidable (ageAccepted a) := by unfold ageAccepted; infer_instance
instance (h : ℚ) : Decidable (heightAccepted h) := by unfold heightAccepted; infer_instance
instance (w : ℚ) : Decidable (weightAccepted w) := by unfold weightAccepted; infer_instance

lemma cat_under (b : ℚ) : (getBMICategory b).category = "Underweight" ↔ b < 18.5 := by
  unfold getBMICategory
  split_ifs with h1 h2 h3 <;> simp_all

lemma cat_normal (b : ℚ) :
    (getBMICategory b).category = "Normal Weight" ↔ 18.5 ≤ b ∧ b < 25 := by
  unfold getBMICategory
  split_ifs with h1 h2 h3
  · simp
    intro h
    linarith
  · simp_all
  · obtain ⟨h3a, h3b⟩ := h3
    simp
    intro h
    linarith
  · simp_all

lemma cat_over (b : ℚ) :
    (getBMICategory b).category = "Overweight" ↔ 25 ≤ b ∧ b < 30 := by
  unfold getBMICategory
  split_ifs with h1 h2 h3
  · simp
    intro h
    linarith
  · obtain ⟨h2a, h2b⟩ := h2
    simp
    intro h
    linarith
  · simp_all
  · simp_all

lemma cat_obese (b : ℚ) : (getBMICategory b).category = "Obese" ↔ 30 ≤ b := by
  unfold getBMICategory
  split_ifs with h1 h2 h3
  · simp
    linarith
  · obtain ⟨h2a, h2b⟩ := h2
    simp
    linarith
  · obtain ⟨h3a, h3b⟩ := h3
    simp
    linarith
  · push_neg at h1
    simp
    by_contra hc
    push_neg at hc
    rcases lt_or_le b 25 with h | h
    · exact h2 ⟨h1, h⟩
    · exact h3 ⟨h, hc⟩

/-- C1: getBMICategory returns Underweight exactly when bmi < 18.5, Normal Weight
exactly when 18.5 ≤ bmi < 25, Overweight exactly when 25 ≤ bmi < 30, and Obese exactly
when bmi ≥ 30; in particular each boundary value 18.5, 25 and 30 lands in the higher
category. -/
theorem getBMICategory_ranges :
    (∀ b : ℚ,
      ((getBMICategory b).category = "Underweight" ↔ b < 18.5) ∧
      ((getBMICategory b).category = "Normal Weight" ↔ 18.5 ≤ b ∧ b < 25) ∧
      ((getBMICategory b).category = "Overweight" ↔ 25 ≤ b ∧ b < 30) ∧
      ((getBMICategory b).category = "Obese" ↔ 30 ≤ b)) ∧
    (getBMICategory 18.5).category = "Normal Weight" ∧
    (getBMICategory 25).category = "Overweight" ∧
    (getBMICategory 30).category = "Obese" := by
  refine ⟨fun b => ⟨cat_under b, cat_normal b, cat_over b, cat_obese b⟩, ?_, ?_, ?_⟩
  · exact (cat_normal 18.5).mpr ⟨le_refl _, by norm_num⟩
  · exact (cat_over 25).mpr ⟨le_refl _, by norm_num⟩
  · exact (cat_obese 30).mpr (le_refl _)

/-- C3: for every positive value, convertHeight divides centimeters by 100 and
multiplies feet by 0.3048, and convertWeight multiplies pounds by 0.453592 and leaves
kilograms unchanged. -/
theorem convert_units (v : ℚ) (hv : 0 < v) :
    convertHeight v "cm" = v / 100 ∧ convertHeight v "ft" = v * 0.3048 ∧
    convertWeight v "lbs" = v * 0.453592 ∧ convertWeight v "kg" = v := by
  refine ⟨?_, ?_, ?_, ?_⟩ <;> simp [convertHeight, convertWeight]

/-- Witness for convert_units at v = 1. -/
theorem convert_units_witness :
    convertHeight 1 "cm" = 1 / 100 ∧ convertHeight 1 "ft" = 1 * 0.3048 ∧
    convertWeight 1 "lbs" = 1 * 0.453592 ∧ convertWeight 1 "kg" = 1 :=
  convert_units 1 (by norm_num)

/-- C10: any unit string other than "ft" makes convertHeight treat the value as
centimeters, and any unit string other than "lbs" makes convertWeight return the value
unchanged; unrecognized units silently fall back to the metric default. -/
theorem unknown_unit_metric_default (v : ℚ) (u₁ u₂ : String)
    (h₁ : u₁ ≠ "ft") (h₂ : u₂ ≠ "lbs") :
    convertHeight v u₁ = v / 100 ∧ convertWeight v u₂ = v := by
  unfold convertHeight convertWeight
  rw [if_neg h₁, if_neg h₂]
  exact ⟨rfl, rfl⟩

/-- Witness for unknown_unit_metric_default at out-of-enumeration unit strings. -/
theorem unknown_unit_metric_default_witness :
    convertHeight 50 "furlong" = 50 / 100 ∧ convertWeight 50 "stone" = 50 :=
  unknown_unit_metric_default 50 "furlong" "stone" (by simp) (by simp)

/-- C2: for every measurement with positive height and weight, the bmi field of the
result equals the converted weight divided by the square of the converted height, and
the category, description and color are obtained by classifying that full-precision
bmi value. -/
theorem onSubmit_formula (m : BMICalculation) (hh : 0 < m.height) (hw : 0 < m.weight) :
    (onSubmit m).bmi =
      convertWeight m.weight m.weightUnit / (convertHeight m.height m.heightUnit) ^ 2 ∧
    (onSubmit m).category = (getBMICategory ((onSubmit m).bmi)).category ∧
    (onSubmit m).description = (getBMICategory ((onSubmit m).bmi)).description ∧
    (onSubmit m).color = (getBMICategory ((onSubmit m).bmi)).color := by
  refine ⟨?_, rfl, rfl, rfl⟩
  rw [pow_two]
  rfl

/-- Witness for onSubmit_formula at 180 cm, 75 kg. -/
theorem onSubmit_formula_witness :
    (onSubmit ⟨30, 180, 75, "cm", "kg"⟩).bmi =
      convertWeight 75 "kg" / (convertHeight 180 "cm") ^ 2 :=
  (onSubmit_formula ⟨30, 180, 75, "cm", "kg"⟩ (by norm_num) (by norm_num)).1

/-- C4 counterexample: 0.05 is strictly positive yet rejected by the height and weight
validators, which require at least 0.1, so acceptance is not equivalent to positivity. -/
theorem schema_rejects_small_positive :
    (0 : ℚ) < 0.05 ∧ ¬ heightAccepted 0.05 ∧ ¬ weightAccepted 0.05 := by
  norm_num [heightAccepted, weightAccepted]

/-- C4 amended: the height and weight validators accept a value exactly when it is at
least 0.1; every non-positive value is rejected, but strictly positive values below 0.1
are rejected as well. -/
theorem schema_height_weight_threshold (h w : ℚ) :
    (heightAccepted h ↔ 1 / 10 ≤ h) ∧ (weightAccepted w ↔ 1 / 10 ≤ w) ∧
    (h ≤ 0 → ¬ heightAccepted h) ∧ (w ≤ 0 → ¬ weightAccepted w) := by
  unfold heightAccepted weightAccepted
  norm_num
  constructor <;> intro h1 <;> linarith

/-- Witness for schema_height_weight_threshold at 0.1 and 0. -/
theorem schema_height_weight_threshold_witness :
    heightAccepted (1 / 10) ∧ ¬ heightAccepted 0 ∧
    weightAccepted (1 / 10) ∧ ¬ weightAccepted 0 := by
  obtain ⟨hiff, wiff, -, -⟩ := schema_height_weight_threshold (1 / 10) (1 / 10)
  obtain ⟨-, -, hneg, wneg⟩ := schema_height_weight_threshold 0 0
  exact ⟨hiff.mpr le_rfl, hneg le_rfl, wiff.mpr le_rfl, wneg le_rfl⟩

/-- C5 counterexample: the age 1.5 is not an integer yet the age validator accepts it;
the schema has no integrality check. -/
theorem schema_accepts_noninteger_age :
    ageAccepted 1.5 ∧ ¬ (∃ n : ℤ, (1.5 : ℚ) = (n : ℚ)) := by
  constructor
  · norm_num [ageAccepted]
  · rintro ⟨n, hn⟩
    have h3 : (3 : ℚ) = 2 * (n : ℚ) := by rw [← hn]; norm_num
    have h3i : (3 : ℤ) = 2 * n := by exact_mod_cast h3
    omega

/-- C5 amended: the age validator accepts a value exactly when 1 ≤ age ≤ 120, with no
integrality requirement; 120 is accepted, 0 and 121 are rejected, and non-integer
values inside the range are accepted. -/
theorem schema_age_range :
    (∀ a : ℚ, ageAccepted a ↔ 1 ≤ a ∧ a ≤ 120) ∧
    ageAccepted 120 ∧ ¬ ageAccepted 0 ∧ ¬ ageAccepted 121 := by
  refine ⟨fun a => Iff.rfl, ?_, ?_, ?_⟩ <;> norm_num [ageAccepted]

/-- C6: two measurements equal in height, heightUnit, weight and weightUnit produce
identical results regardless of age: equal bmi, category, description and color. -/
theorem age_independent (m₁ m₂ : BMICalculation)
    (hh : m₁.height = m₂.height) (hhu : m₁.heightUnit = m₂.heightUnit)
    (hw : m₁.weight = m₂.weight) (hwu : m₁.weightUnit = m₂.weightUnit) :
    onSubmit m₁ = onSubmit m₂ := by
  simp only [onSubmit, hh, hhu, hw, hwu]

/-- Witness for age_independent at two measurements whose ages differ. -/
theorem age_independent_witness :
    onSubmit ⟨25, 170, 70, "cm", "kg"⟩ = onSubmit ⟨80, 170, 70, "cm", "kg"⟩ :=
  age_independent ⟨25, 170, 70, "cm", "kg"⟩ ⟨80, 170, 70, "cm", "kg"⟩ rfl rfl rfl rfl

/-- C7: at height 100 cm and weight 18.5 kg the computed bmi is exactly 18.5 and the
category is Normal Weight, not Underweight. -/
theorem boundary_measurement :
    (onSubmit ⟨30, 100, 18.5, "cm", "kg"⟩).bmi = 18.5 ∧
    (onSubmit ⟨30, 100, 18.5, "cm", "kg"⟩).category = "Normal Weight" ∧
    (onSubmit ⟨30, 100, 18.5, "cm", "kg"⟩).category ≠ "Underweight" := by
  refine ⟨?_, ?_, ?_⟩
  · simp [onSubmit, convertHeight, convertWeight]
  · simp [onSubmit, convertHeight, convertWeight, getBMICategory]
    norm_num
  · simp [onSubmit, convertHeight, convertWeight, getBMICategory]
    norm_num
    simp

/-- C8: unit conversions round-trip exactly over exact arithmetic: multiplying the
centimeter conversion by 100, dividing the feet conversion by 0.3048, and dividing the
pound conversion by 0.453592 each recover the original positive value. -/
theorem conversion_round_trip (v : ℚ) (hv : 0 < v) :
    convertHeight v "cm" * 100 = v ∧
    convertHeight v "ft" / 0.3048 = v ∧
    convertWeight v "lbs" / 0.453592 = v := by
  have hcm : convertHeight v "cm" = v / 100 := by simp [convertHeight]
  have hft : convertHeight v "ft" = v * 0.3048 := by simp [convertHeight]
  have hlbs : convertWeight v "lbs" = v * 0.453592 := by simp [convertWeight]
  rw [hcm, hft, hlbs]
  exact ⟨div_mul_cancel₀ v (by norm_num), mul_div_cancel_right₀ v (by norm_num),
    mul_div_cancel_right₀ v (by norm_num)⟩

/-- Witness for conversion_round_trip at v = 2. -/
theorem conversion_round_trip_witness :
    convertHeight 2 "cm" * 100 = 2 ∧ convertHeight 2 "ft" / 0.3048 = 2 ∧
    convertWeight 2 "lbs" / 0.453592 = 2 :=
  conversion_round_trip 2 (by norm_num)

/-- C9: the computation is deterministic and stateless: two measurements equal in all
five fields yield equal bmi, category, description and color. -/
theorem onSubmit_deterministic (m₁ m₂ : BMICalculation)
    (ha : m₁.age = m₂.age) (hh : m₁.height = m₂.height)
    (hhu : m₁.heightUnit = m₂.heightUnit) (hw : m₁.weight = m₂.weight)
    (hwu : m₁.weightUnit = m₂.weightUnit) :
    (onSubmit m₁).bmi = (onSubmit m₂).bmi ∧
    (onSubmit m₁).category = (onSubmit m₂).category ∧
    (onSubmit m₁).description = (onSubmit m₂).description ∧
    (onSubmit m₁).color = (onSubmit m₂).color := by
  have h : onSubmit m₁ = onSubmit m₂ := by
    simp only [onSubmit, hh, hhu, hw, hwu]
  exact ⟨by rw [h], by rw [h], by rw [h], by rw [h]⟩

/-- Witness for onSubmit_deterministic, invoking the computation twice on the same
measurement. -/
theorem onSubmit_deterministic_witness :
    (onSubmit ⟨30, 180, 75, "cm", "kg"⟩).bmi = (onSubmit ⟨30, 180, 75, "cm", "kg"⟩).bmi ∧
    (onSubmit ⟨30, 180, 75, "cm", "kg"⟩).category =
      (onSubmit ⟨30, 180, 75, "cm", "kg"⟩).category ∧
    (onSubmit ⟨30, 180, 75, "cm", "kg"⟩).description =
      (onSubmit ⟨30, 180, 75, "cm", "kg"⟩).description ∧
    (onSubmit ⟨30, 180, 75, "cm", "kg"⟩).color =
      (onSubmit ⟨30, 180, 75, "cm", "kg"⟩).color :=
  onSubmit_deterministic ⟨30, 180, 75, "cm", "kg"⟩ ⟨30, 180, 75, "cm", "kg"⟩
    rfl rfl rfl rfl rfl

end BMI
